import Mathlib

attribute [local semireducible] Rat.add Rat.sub Rat.mul Rat.inv Rat.ofScientific

/-!
Verification of the DrivingCoach fusion/state layer.

This file shallowly embeds the decision/fusion components of the repository
and proves properties about them:

* `EmergencyBrakingSystem.check` from `캡스톤_모델정리/src/main.py`
  (per-track threat history, candidate warning condition, 20-frame cooldown,
  eviction of absent track ids);
* `ScenarioEvaluator.evaluate`, `ScenarioEvaluator.is_blinker_stuck` and
  `ScenarioEvaluator.evaluate_wiper` from the same file (priority-ordered
  rule table with cross-chunk memory);
* the per-chunk signal debouncing done in `ScenarioEngine.process_video`;
* `LaneTracker.update` and `detect_lane_change` from
  `model/find_lane/final_lane_detection.py`;
* `detect_lane_departure` from `model/find_lane/lane_departure_detection.py`.

Python floats are modelled as rationals, Python ints as `Int`/`Nat`, Python
dicts keyed by track id as functions with an explicit default (absent key and
default value coincide wherever the code relies on membership tests), and
mutating methods as state-passing functions.
-/

/-! ## Data model: tracked objects (main.py, `current_objects` entries) -/

/-- One entry of the `current_objects` list handed to
`EmergencyBrakingSystem.check`: the dict built in
`ScenarioEngine.process_video` with keys `class_name`, `track_id`,
`distance_forward_m`, `distance_lateral_m`. -/
structure TrackedObject where
  class_name : String
  track_id : Int
  distance_forward_m : ℚ
  distance_lateral_m : ℚ
deriving DecidableEq, Repr

/-- `VEHICLE_CLASSES_DEFAULT` from main.py. -/
def VEHICLE_CLASSES_DEFAULT : List String := ["car", "truck", "bus", "motorcycle"]

/-! ## EmergencyBrakingSystem (main.py lines 208-243) -/

/-- The mutable state of `EmergencyBrakingSystem`: `self.history` (dict from
track id to a list of `(frame_counter, distance)` samples, absent key read as
the empty list), `self.last_warning` (dict from track id to the frame counter
of the last emitted warning; `none` models an absent key, read back through
`dict.get(tid, -999)`), `self.frame_counter`, and `self.vehicle_classes`. -/
structure EmergencyBrakingSystem where
  history : Int → List (Nat × ℚ)
  last_warning : Int → Option Nat
  frame_counter : Nat
  vehicle_classes : List String

/-- A fresh `EmergencyBrakingSystem(vehicle_classes)` with the default
vehicle class set. -/
def ebsInit : EmergencyBrakingSystem :=
  { history := fun _ => []
    last_warning := fun _ => none
    frame_counter := 0
    vehicle_classes := VEHICLE_CLASSES_DEFAULT }

/-- `self.last_warning.get(tid, -999)` from main.py line 236. -/
def lastWarnInt (lw : Int → Option Nat) (tid : Int) : Int :=
  match lw tid with
  | none => -999
  | some w => (w : Int)

/-- `self.history[tid][-5][1]` (the distance of the fifth sample from the
end); main.py line 233, only evaluated when the history has at least 10
samples, hence at least 5. -/
def histNegFifth (l : List (Nat × ℚ)) : ℚ :=
  (l.getD (l.length - 5) (0, 0)).2

/-- The candidate-warning guard of main.py lines 231-235: the (updated)
history holds at least 10 samples, `velocity_recent = mid_dist - curr_dist`
is at least `2.0`, and the current forward distance is at most `1.0`. -/
def ebsCandidate (hist : List (Nat × ℚ)) (dist : ℚ) : Bool :=
  decide (10 ≤ hist.length) && decide (2 ≤ histNegFifth hist - dist) && decide (dist ≤ 1)

/-- Loop-carried state of the `for obj in current_objects` loop in
`EmergencyBrakingSystem.check`: the history dict, the last-warning dict, the
`present_ids` set (as a list, only membership is used) and the
`is_danger_detected` flag. -/
structure EbsLoopState where
  history : Int → List (Nat × ℚ)
  last_warning : Int → Option Nat
  present_ids : List Int
  danger : Bool

/-- The history of one track after the current frame: append
`(frame_counter, distance)` and keep only the samples at most 15 frames old
(main.py lines 229-230). -/
def ebsNewHist (fc : Nat) (hist : List (Nat × ℚ)) (dist : ℚ) : List (Nat × ℚ) :=
  (hist ++ [(fc, dist)]).filter (fun h => fc - h.1 ≤ 15)

/-- One iteration of the object loop of `EmergencyBrakingSystem.check`
(main.py lines 219-239), with `fc` the already-incremented
`self.frame_counter`. Objects outside the vehicle class set or with
`abs(distance_lateral_m) > 1.8` are skipped; otherwise the sample is
appended, the history is aged to a 15-frame window, and the candidate
condition plus the 20-frame cooldown decide whether a warning fires. -/
def ebsObjStep (vcs : List String) (fc : Nat) (st : EbsLoopState) (obj : TrackedObject) :
    EbsLoopState :=
  if obj.class_name ∉ vcs then st
  else if (9 / 5 : ℚ) < |obj.distance_lateral_m| then st
  else if ebsCandidate (ebsNewHist fc (st.history obj.track_id) obj.distance_forward_m)
      obj.distance_forward_m then
    if 20 < (fc : Int) - lastWarnInt st.last_warning obj.track_id then
      { history := Function.update st.history obj.track_id
          (ebsNewHist fc (st.history obj.track_id) obj.distance_forward_m)
        last_warning := Function.update st.last_warning obj.track_id (some fc)
        present_ids := st.present_ids ++ [obj.track_id]
        danger := true }
    else
      { st with
        history := Function.update st.history obj.track_id
          (ebsNewHist fc (st.history obj.track_id) obj.distance_forward_m)
        present_ids := st.present_ids ++ [obj.track_id] }
  else
    { st with
      history := Function.update st.history obj.track_id
        (ebsNewHist fc (st.history obj.track_id) obj.distance_forward_m)
      present_ids := st.present_ids ++ [obj.track_id] }

/-- `EmergencyBrakingSystem.check` (main.py lines 215-243): increments the
frame counter, runs the object loop, evicts history entries whose track id is
not in `present_ids`, and returns the new state and `is_danger_detected`. -/
def EmergencyBrakingSystem.check (s : EmergencyBrakingSystem)
    (current_objects : List TrackedObject) : EmergencyBrakingSystem × Bool :=
  let fc := s.frame_counter + 1
  let lp := current_objects.foldl (ebsObjStep s.vehicle_classes fc)
    { history := s.history, last_warning := s.last_warning, present_ids := [], danger := false }
  ({ history := fun tid => if tid ∈ lp.present_ids then lp.history tid else []
     last_warning := lp.last_warning
     frame_counter := fc
     vehicle_classes := s.vehicle_classes }, lp.danger)

/-- `present_ids` as computed by a whole run of the object loop: the track
ids of the objects that pass the vehicle-class and lateral gates. -/
def present_ids (vcs : List String) (objs : List TrackedObject) : List Int :=
  (objs.filter (fun o =>
    decide (o.class_name ∈ vcs) && !decide ((9 / 5 : ℚ) < |o.distance_lateral_m|))).map
    (fun o => o.track_id)

/-- Running `check` over a list of frames, keeping only the final state. -/
def ebsStates (s : EmergencyBrakingSystem) (frames : List (List TrackedObject)) :
    EmergencyBrakingSystem :=
  frames.foldl (fun s f => (EmergencyBrakingSystem.check s f).1) s

/-- Running `check` over a list of frames, collecting the per-frame danger
flags. -/
def ebsRun (s : EmergencyBrakingSystem) (frames : List (List TrackedObject)) :
    EmergencyBrakingSystem × List Bool :=
  frames.foldl (fun acc f =>
    let r := EmergencyBrakingSystem.check acc.1 f
    (r.1, acc.2 ++ [r.2])) (s, [])

/-- State after processing the first `i` frames. -/
def ebsStateAt (s : EmergencyBrakingSystem) (frames : List (List TrackedObject)) (i : Nat) :
    EmergencyBrakingSystem :=
  ebsStates s (frames.take i)

/-- A warning is emitted for `tid` at frame index `i` (0-based) of the run:
processing frame `i` changes the `last_warning` entry of `tid`. The code
updates `self.last_warning[tid]` exactly when it emits a warning for `tid`. -/
def warnedAt (s : EmergencyBrakingSystem) (frames : List (List TrackedObject))
    (i : Nat) (tid : Int) : Prop :=
  (EmergencyBrakingSystem.check (ebsStateAt s frames i) (frames.getD i [])).1.last_warning tid ≠
    (ebsStateAt s frames i).last_warning tid

/-! ## ScenarioEvaluator (main.py lines 246-311) -/

/-- `ChunkFeatures` from main.py (dataclass, lines 86-100). -/
structure ChunkFeatures where
  chunk_id : Nat
  horn : Bool := false
  blinker_audio : Bool := false
  wiper_audio : Bool := false
  left_signal_on : Bool := false
  right_signal_on : Bool := false
  hazard_on : Bool := false
  lane_change : Bool := false
  lane_offset : ℚ := 0
  tailgating : Bool := false
  sudden_stop : Bool := false
  pedestrian_present : Bool := false
  crosswalk_sign_present : Bool := false
deriving DecidableEq, Repr

/-- `ScenarioState` from main.py (dataclass, lines 112-117). -/
structure ScenarioState where
  last_lane_change_chunk : Option Nat := none
  last_lane_change_used_blinker : Bool := false
  blinker_still_on_chunks : Nat := 0
  last_wiper_hazard_chunk : Option Nat := none
deriving DecidableEq, Repr

/-- `ScenarioEvaluator`: its `ScenarioState` plus the configured
`wiper_repeat_window`. -/
structure ScenarioEvaluator where
  state : ScenarioState := {}
  wiper_repeat_window : Nat := 3
deriving DecidableEq, Repr

/-- `SCENARIO_MESSAGES.get(scenario_id, "정상 운행")` from main.py. -/
def scenarioMessage (scenario_id : Nat) : String :=
  if scenario_id = 4 then "차선 변경 후 방향지시등을 끄지 않았습니다."
  else if scenario_id = 5 then "방향지시등 없이 차선을 변경했습니다."
  else if scenario_id = 7 then "와이퍼+비상등 감지: 전조등/안개등을 켜 주세요."
  else if scenario_id = 8 then "우회전 보행자 구간에서 경적이 울렸습니다 (보행자 없음)."
  else if scenario_id = 9 then "보행자 근처에서 경적이 울렸습니다."
  else if scenario_id = 10 then "급정거 중 경적 감지: 위협 운전입니다."
  else if scenario_id = 11 then "비 오는 날 비상등 남용이 감지되었습니다."
  else "정상 운행"

/-- `ScenarioEvaluator._is_blinker_stuck` (main.py lines 284-295), returning
the mutated state together with the boolean result. -/
def ScenarioEvaluator.is_blinker_stuck (s : ScenarioState) (f : ChunkFeatures) :
    ScenarioState × Bool :=
  match s.last_lane_change_chunk with
  | none => (s, false)
  | some lcc =>
    if !s.last_lane_change_used_blinker then (s, false)
    else if 2 < (f.chunk_id : Int) - (lcc : Int) then
      ({ s with blinker_still_on_chunks := 0 }, false)
    else if f.left_signal_on || f.right_signal_on || f.blinker_audio then
      let c := s.blinker_still_on_chunks + 1
      ({ s with blinker_still_on_chunks := c }, decide (2 ≤ c))
    else
      ({ s with blinker_still_on_chunks := 0 }, false)

/-- The guard `last_chunk is not None and features.chunk_id - last_chunk <=
self.wiper_repeat_window` of `ScenarioEvaluator._evaluate_wiper`. -/
def wiperWithinWindow (window : Nat) (s : ScenarioState) (f : ChunkFeatures) : Bool :=
  match s.last_wiper_hazard_chunk with
  | none => false
  | some lc => decide ((f.chunk_id : Int) - (lc : Int) ≤ (window : Int))

/-- `ScenarioEvaluator._evaluate_wiper` (main.py lines 297-311): if the chunk
has both wiper audio and hazard lights, fold event 11 (repeat within the
window) or event 7 (otherwise) into `current_id`, Python `or` keeping any
nonzero `current_id`; record the chunk id of the occurrence. -/
def ScenarioEvaluator.evaluate_wiper (window : Nat) (s : ScenarioState)
    (f : ChunkFeatures) (current_id : Nat) : ScenarioState × Nat :=
  if !(f.wiper_audio && f.hazard_on) then (s, current_id)
  else
    let sid :=
      if wiperWithinWindow window s f then
        (if current_id ≠ 0 then current_id else 11)
      else
        (if current_id ≠ 0 then current_id else 7)
    ({ s with last_wiper_hazard_chunk := some f.chunk_id }, sid)

/-- `ScenarioEvaluator.evaluate` (main.py lines 251-282): records lane-change
bookkeeping, runs the fixed priority chain (events 10, 11, 9, 8, 5, 4), then
folds in the wiper events and looks up the message. -/
def ScenarioEvaluator.evaluate (e : ScenarioEvaluator) (f : ChunkFeatures) :
    ScenarioEvaluator × Nat × String :=
  let blinker_used := f.left_signal_on || f.right_signal_on || f.blinker_audio
  let s1 : ScenarioState :=
    if f.lane_change then
      { e.state with
        last_lane_change_chunk := some f.chunk_id
        last_lane_change_used_blinker := blinker_used
        blinker_still_on_chunks := 0 }
    else e.state
  let step : ScenarioState × Nat :=
    if f.horn && f.sudden_stop && !f.tailgating then (s1, 10)
    else if f.horn && f.tailgating then (s1, 11)
    else if f.horn && f.pedestrian_present then (s1, 9)
    else if f.horn && f.crosswalk_sign_present && !f.pedestrian_present && f.right_signal_on then
      (s1, 8)
    else if f.lane_change && !blinker_used then (s1, 5)
    else
      let r := ScenarioEvaluator.is_blinker_stuck s1 f
      (r.1, if r.2 then 4 else 0)
  let w := ScenarioEvaluator.evaluate_wiper e.wiper_repeat_window step.1 f step.2
  ({ e with state := w.1 }, w.2, scenarioMessage w.2)

/-- Running the evaluator over a list of chunk feature records, collecting
the scenario ids (one per chunk, in order). -/
def scenarioRun (e : ScenarioEvaluator) (fs : List ChunkFeatures) :
    ScenarioEvaluator × List Nat :=
  fs.foldl (fun acc f =>
    let r := ScenarioEvaluator.evaluate acc.1 f
    (r.1, acc.2 ++ [r.2.1])) (e, [])

/-! ## Chunk-level signal debouncing (main.py, `ScenarioEngine.process_video`
lines 417-428 and 474-476) -/

/-- The running `(chunk_l_counts, chunk_r_counts)` accumulation over the
sampled frames of a chunk; each frame contributes its two per-frame
`check_signal_status` booleans. -/
def chunkSignalCounts (frames : List (Bool × Bool)) : Nat × Nat :=
  frames.foldl
    (fun acc fr => (if fr.1 then acc.1 + 1 else acc.1, if fr.2 then acc.2 + 1 else acc.2))
    (0, 0)

/-- `features.left_signal_on = chunk_l_counts >= self.args.signal_threshold`
(main.py line 474). -/
def chunkLeftSignalOn (frames : List (Bool × Bool)) (signal_threshold : Nat) : Bool :=
  decide (signal_threshold ≤ (chunkSignalCounts frames).1)

/-- `features.right_signal_on = chunk_r_counts >= self.args.signal_threshold`
(main.py line 475). -/
def chunkRightSignalOn (frames : List (Bool × Bool)) (signal_threshold : Nat) : Bool :=
  decide (signal_threshold ≤ (chunkSignalCounts frames).2)

/-- `features.hazard_on = features.left_signal_on and
features.right_signal_on` (main.py line 476). -/
def chunkHazardOn (frames : List (Bool × Bool)) (signal_threshold : Nat) : Bool :=
  chunkLeftSignalOn frames signal_threshold && chunkRightSignalOn frames signal_threshold

/-! ## LaneTracker (final_lane_detection.py lines 104-157) -/

/-- `LaneTracker` state: smoothed left/right lane x estimates (no estimate is
`none`), ages since the side was last directly observed, and the two
configuration constants of `__init__`. -/
structure LaneTracker where
  left_x : Option ℚ := none
  right_x : Option ℚ := none
  left_age : Nat := 0
  right_age : Nat := 0
  persistence_frames : Nat := 15
  smooth_alpha : ℚ := 7 / 10
deriving DecidableEq, Repr

/-- `LaneTracker.update` (final_lane_detection.py lines 120-157): each side
independently either smooths toward a fresh detection and resets its age, or
ages and is cleared once the age exceeds `persistence_frames`; returns the
mutated tracker together with `(left_x, right_x, left_confident,
right_confident)`. -/
def LaneTracker.update (t : LaneTracker) (detected_left detected_right : Option ℚ) :
    LaneTracker × (Option ℚ × Option ℚ × Bool × Bool) :=
  let lstep : Option ℚ × Nat :=
    match detected_left with
    | some d =>
      (match t.left_x with
       | none => (some d, 0)
       | some x => (some (t.smooth_alpha * d + (1 - t.smooth_alpha) * x), 0))
    | none =>
      let a := t.left_age + 1
      (if t.persistence_frames < a then none else t.left_x, a)
  let rstep : Option ℚ × Nat :=
    match detected_right with
    | some d =>
      (match t.right_x with
       | none => (some d, 0)
       | some x => (some (t.smooth_alpha * d + (1 - t.smooth_alpha) * x), 0))
    | none =>
      let a := t.right_age + 1
      (if t.persistence_frames < a then none else t.right_x, a)
  let t1 : LaneTracker :=
    { t with
      left_x := lstep.1, left_age := lstep.2
      right_x := rstep.1, right_age := rstep.2 }
  let left_confident := t1.left_x.isSome && decide (t1.left_age < 5)
  let right_confident := t1.right_x.isSome && decide (t1.right_age < 5)
  (t1, (t1.left_x, t1.right_x, left_confident, right_confident))

/-- Feeding a list of per-frame `(detected_left, detected_right)` inputs
through `LaneTracker.update`, keeping the final tracker. -/
def trackerRun (t : LaneTracker) (ins : List (Option ℚ × Option ℚ)) : LaneTracker :=
  ins.foldl (fun t p => (t.update p.1 p.2).1) t

/-- Direction of a detected lane change. -/
inductive LaneDir
  | to_left
  | to_right
deriving DecidableEq, Repr

/-- `detect_lane_change` (final_lane_detection.py lines 159-195): needs both
sides tracked, compares the lane center against the previous center, and
reports a change with a direction when the shift magnitude is above the
threshold. Returns `(is_changing, direction, new_center)`. -/
def detect_lane_change (tracker : LaneTracker) (prev_center : Option ℚ) (threshold : ℚ) :
    Bool × Option LaneDir × Option ℚ :=
  match tracker.left_x, tracker.right_x with
  | some l, some r =>
    let current_center := (l + r) / 2
    match prev_center with
    | none => (false, none, some current_center)
    | some pc =>
      let center_shift := current_center - pc
      if threshold < |center_shift| then
        (true, some (if 0 < center_shift then LaneDir.to_right else LaneDir.to_left),
          some current_center)
      else
        (false, none, some current_center)
  | _, _ => (false, none, prev_center)

/-! ## Lane departure (lane_departure_detection.py lines 130-175) -/

/-- The three departure states of `detect_lane_departure`. -/
inductive DepState
  | normal
  | crossing_left
  | crossing_right
deriving DecidableEq, Repr

/-- Direction of a departure event. -/
inductive DepDir
  | left
  | right
deriving DecidableEq, Repr

/-- `detect_lane_departure` (lane_departure_detection.py lines 130-175):
edge-triggered boundary-crossing detector. Returns `(is_departing,
direction, new_state)`. -/
def detect_lane_departure (vehicle_x : ℚ) (left_lane_x right_lane_x : Option ℚ)
    (prev_state : DepState) : Bool × Option DepDir × DepState :=
  match left_lane_x, right_lane_x with
  | some lx, some rx =>
    let crossing_left := decide (vehicle_x ≤ lx)
    let crossing_right := decide (rx ≤ vehicle_x)
    if crossing_left && !(decide (prev_state = DepState.crossing_left)) then
      (true, some DepDir.left, DepState.crossing_left)
    else if crossing_right && !(decide (prev_state = DepState.crossing_right)) then
      (true, some DepDir.right, DepState.crossing_right)
    else if crossing_left then (false, none, DepState.crossing_left)
    else if crossing_right then (false, none, DepState.crossing_right)
    else (false, none, DepState.normal)
  | _, _ => (false, none, prev_state)

/-- One frame of a `detect_lane_departure` run: feed the current state, and
append the `is_departing` flag to the accumulated flag list. -/
def depStep (vehicle_x : ℚ) (acc : List Bool × DepState) (p : Option ℚ × Option ℚ) :
    List Bool × DepState :=
  let r := detect_lane_departure vehicle_x p.1 p.2 acc.2
  (acc.1 ++ [r.1], r.2.2)

/-- Running `detect_lane_departure` over a list of per-frame
`(left_lane_x, right_lane_x)` inputs with a fixed `vehicle_x`, collecting
the per-frame `is_departing` flags and the final state. -/
def departureRun (vehicle_x : ℚ) (inputs : List (Option ℚ × Option ℚ)) (s : DepState) :
    List Bool × DepState :=
  inputs.foldl (depStep vehicle_x) ([], s)

instance (s : EmergencyBrakingSystem) (frames : List (List TrackedObject)) (i : Nat)
    (tid : Int) : Decidable (warnedAt s frames i tid) := by
  unfold warnedAt; infer_instance

/-! ## Counting lemma for the signal debouncer -/

lemma chunkSignalCounts_go (frames : List (Bool × Bool)) (a b : Nat) :
    frames.foldl
      (fun acc fr => (if fr.1 then acc.1 + 1 else acc.1, if fr.2 then acc.2 + 1 else acc.2))
      (a, b)
    = (a + (frames.filter (fun p => p.1)).length,
       b + (frames.filter (fun p => p.2)).length) := by
  induction frames generalizing a b with
  | nil => simp
  | cons p l ih =>
    simp only [List.foldl_cons, List.filter_cons]
    cases hp : p.1 <;> cases hq : p.2 <;>
      simp [hp, hq, ih, Prod.ext_iff] <;> omega

lemma chunkSignalCounts_eq (frames : List (Bool × Bool)) :
    chunkSignalCounts frames
      = ((frames.filter (fun p => p.1)).length, (frames.filter (fun p => p.2)).length) := by
  unfold chunkSignalCounts
  simpa using chunkSignalCounts_go frames 0 0

/-- C1: for every `ChunkFeatures` with `horn`, `tailgating` and `sudden_stop`
all true, `ScenarioEvaluator.evaluate` returns scenario id 11 (tailgating
with horn), never 10 (sudden stop): the sudden-stop rule is guarded by
`not features.tailgating`, so it cannot fire when tailgating holds, and the
wiper fold keeps any nonzero id. -/
theorem scenario_priority_tailgating_horn (e : ScenarioEvaluator) (cid : Nat)
    (ba wa ls rs hz lc : Bool) (lo : ℚ) (pp cp : Bool) :
    (ScenarioEvaluator.evaluate e
      { chunk_id := cid, horn := true, blinker_audio := ba, wiper_audio := wa,
        left_signal_on := ls, right_signal_on := rs, hazard_on := hz,
        lane_change := lc, lane_offset := lo, tailgating := true,
        sudden_stop := true, pedestrian_present := pp,
        crosswalk_sign_present := cp }).2.1 = 11 := by
  have h11 : ∀ (w : Nat) (s : ScenarioState) (g : ChunkFeatures),
      (ScenarioEvaluator.evaluate_wiper w s g 11).2 = 11 := by
    intro w s g
    unfold ScenarioEvaluator.evaluate_wiper
    split_ifs <;> simp_all
  exact h11 _ _ _

/-- C8: the chunk-level signal boolean of a side is exactly
"number of sampled frames classified ON is at least `signal_threshold`",
`hazard_on` is exactly the conjunction of the two sides, and at threshold 3
with 20 sampled frames, 2 ON frames give OFF while 3 ON frames give ON. -/
theorem signal_debounce_characterization :
    (∀ (frames : List (Bool × Bool)) (thr : Nat),
        (chunkLeftSignalOn frames thr = true ↔ thr ≤ (frames.filter (fun p => p.1)).length)
      ∧ (chunkRightSignalOn frames thr = true ↔ thr ≤ (frames.filter (fun p => p.2)).length)
      ∧ (chunkHazardOn frames thr = true ↔
          (chunkLeftSignalOn frames thr = true ∧ chunkRightSignalOn frames thr = true)))
  ∧ chunkLeftSignalOn (List.replicate 2 (true, true) ++ List.replicate 18 (false, false)) 3
      = false
  ∧ chunkLeftSignalOn (List.replicate 3 (true, true) ++ List.replicate 17 (false, false)) 3
      = true := by
  refine ⟨fun frames thr => ⟨?_, ?_, ?_⟩, by decide, by decide⟩
  · simp [chunkLeftSignalOn, chunkSignalCounts_eq]
  · simp [chunkRightSignalOn, chunkSignalCounts_eq]
  · simp [chunkHazardOn]

/-- C10: the wiper+hazard fold changes the scenario id only when rules 1-6
produced no event: without wiper audio and hazard lights it returns the
incoming id; with them, a nonzero incoming id is kept unchanged, and an
incoming 0 becomes 11 inside the repeat window of the previous wiper+hazard
occurrence and 7 outside it (or on a first occurrence). -/
theorem wiper_rule_only_overrides_default (w : Nat) (s : ScenarioState)
    (f : ChunkFeatures) (c : Nat) :
    (¬(f.wiper_audio = true ∧ f.hazard_on = true) →
        (ScenarioEvaluator.evaluate_wiper w s f c).2 = c)
  ∧ (f.wiper_audio = true → f.hazard_on = true → c ≠ 0 →
        (ScenarioEvaluator.evaluate_wiper w s f c).2 = c)
  ∧ (f.wiper_audio = true → f.hazard_on = true → c = 0 →
        ((wiperWithinWindow w s f = true →
            (ScenarioEvaluator.evaluate_wiper w s f c).2 = 11)
       ∧ (wiperWithinWindow w s f = false →
            (ScenarioEvaluator.evaluate_wiper w s f c).2 = 7))) := by
  unfold ScenarioEvaluator.evaluate_wiper
  refine ⟨fun h => ?_, fun hw hh hc => ?_, fun hw hh hc => ⟨fun hin => ?_, fun hout => ?_⟩⟩
  · have hf : (f.wiper_audio && f.hazard_on) = false := by
      rcases Bool.eq_false_or_eq_true f.wiper_audio with h1 | h1 <;>
        rcases Bool.eq_false_or_eq_true f.hazard_on with h2 | h2 <;> simp_all
    simp [hf]
  · simp only [hw, hh, Bool.and_self, Bool.not_true, Bool.false_eq_true, if_false]
    split_ifs <;> simp_all
  · simp [hw, hh, hc, hin]
  · simp [hw, hh, hc, hout]

/-- Witness for C10 at concrete inputs: wiper+hazard with a prior nonzero id
keeps the id; first occurrence with id 0 yields 7; a recurrence inside the
window yields 11; no wiper audio leaves the id alone. -/
theorem wiper_rule_only_overrides_default_witness :
    (ScenarioEvaluator.evaluate_wiper 3 {}
      { chunk_id := 5, wiper_audio := true, hazard_on := true } 9).2 = 9
  ∧ (ScenarioEvaluator.evaluate_wiper 3 {}
      { chunk_id := 5, wiper_audio := true, hazard_on := true } 0).2 = 7
  ∧ (ScenarioEvaluator.evaluate_wiper 3 { last_wiper_hazard_chunk := some 4 }
      { chunk_id := 5, wiper_audio := true, hazard_on := true } 0).2 = 11
  ∧ (ScenarioEvaluator.evaluate_wiper 3 {} { chunk_id := 5 } 5).2 = 5 := by
  refine ⟨?_, ?_, ?_, ?_⟩
  · exact (wiper_rule_only_overrides_default 3 {}
      { chunk_id := 5, wiper_audio := true, hazard_on := true } 9).2.1 rfl rfl (by decide)
  · exact ((wiper_rule_only_overrides_default 3 {}
      { chunk_id := 5, wiper_audio := true, hazard_on := true } 0).2.2 rfl rfl rfl).2 (by decide)
  · exact ((wiper_rule_only_overrides_default 3 { last_wiper_hazard_chunk := some 4 }
      { chunk_id := 5, wiper_audio := true, hazard_on := true } 0).2.2 rfl rfl rfl).1 (by decide)
  · exact (wiper_rule_only_overrides_default 3 {} { chunk_id := 5 } 5).1 (by simp)

/-! ## Lane persistence (C5) -/

lemma update_miss_left (t : LaneTracker) (dr : Option ℚ)
    (hkeep : ¬ t.persistence_frames < t.left_age + 1) :
    (t.update none dr).1.left_x = t.left_x
  ∧ (t.update none dr).1.left_age = t.left_age + 1
  ∧ (t.update none dr).1.persistence_frames = t.persistence_frames := by
  simp [LaneTracker.update, hkeep]

lemma update_miss_right (t : LaneTracker) (dl : Option ℚ)
    (hkeep : ¬ t.persistence_frames < t.right_age + 1) :
    (t.update dl none).1.right_x = t.right_x
  ∧ (t.update dl none).1.right_age = t.right_age + 1
  ∧ (t.update dl none).1.persistence_frames = t.persistence_frames := by
  simp [LaneTracker.update, hkeep]

lemma trackerRun_left_miss (ins : List (Option ℚ × Option ℚ)) (t : LaneTracker) (v : ℚ)
    (hx : t.left_x = some v) (hmiss : ∀ p ∈ ins, p.1 = none)
    (hage : t.left_age + ins.length ≤ t.persistence_frames) :
    (trackerRun t ins).left_x = some v
  ∧ (trackerRun t ins).left_age = t.left_age + ins.length
  ∧ (trackerRun t ins).persistence_frames = t.persistence_frames := by
  induction ins generalizing t with
  | nil => simpa [trackerRun] using hx
  | cons p rest ih =>
    obtain ⟨p1, p2⟩ := p
    have hp : p1 = none := hmiss (p1, p2) (by simp)
    subst hp
    simp only [List.length_cons] at hage
    have hkeep : ¬ t.persistence_frames < t.left_age + 1 := by omega
    have hstep := update_miss_left t p2 hkeep
    have hrec := ih ((t.update none p2).1)
      (by rw [hstep.1, hx])
      (fun q hq => hmiss q (by simp [hq]))
      (by rw [hstep.2.1, hstep.2.2]; omega)
    simp only [trackerRun, List.foldl_cons] at hrec ⊢
    refine ⟨hrec.1, ?_, by rw [hrec.2.2, hstep.2.2]⟩
    rw [hrec.2.1, hstep.2.1]
    simp only [List.length_cons]
    omega

lemma trackerRun_right_miss (ins : List (Option ℚ × Option ℚ)) (t : LaneTracker) (v : ℚ)
    (hx : t.right_x = some v) (hmiss : ∀ p ∈ ins, p.2 = none)
    (hage : t.right_age + ins.length ≤ t.persistence_frames) :
    (trackerRun t ins).right_x = some v
  ∧ (trackerRun t ins).right_age = t.right_age + ins.length
  ∧ (trackerRun t ins).persistence_frames = t.persistence_frames := by
  induction ins generalizing t with
  | nil => simpa [trackerRun] using hx
  | cons p rest ih =>
    obtain ⟨p1, p2⟩ := p
    have hp : p2 = none := hmiss (p1, p2) (by simp)
    subst hp
    simp only [List.length_cons] at hage
    have hkeep : ¬ t.persistence_frames < t.right_age + 1 := by omega
    have hstep := update_miss_right t p1 hkeep
    have hrec := ih ((t.update p1 none).1)
      (by rw [hstep.1, hx])
      (fun q hq => hmiss q (by simp [hq]))
      (by rw [hstep.2.1, hstep.2.2]; omega)
    simp only [trackerRun, List.foldl_cons] at hrec ⊢
    refine ⟨hrec.1, ?_, by rw [hrec.2.2, hstep.2.2]⟩
    rw [hrec.2.1, hstep.2.1]
    simp only [List.length_cons]
    omega

lemma trackerRun_left_clear (ins : List (Option ℚ × Option ℚ)) (t : LaneTracker) (v : ℚ)
    (hne : ins ≠ []) (hx : t.left_x = some v) (hmiss : ∀ p ∈ ins, p.1 = none)
    (hage : t.left_age + ins.length = t.persistence_frames + 1) :
    (trackerRun t ins).left_x = none := by
  induction ins generalizing t with
  | nil => exact absurd rfl hne
  | cons p rest ih =>
    obtain ⟨p1, p2⟩ := p
    have hp : p1 = none := hmiss (p1, p2) (by simp)
    subst hp
    simp only [List.length_cons] at hage
    cases rest with
    | nil =>
      have hdrop : t.persistence_frames < t.left_age + 1 := by
        simp at hage; omega
      simp [trackerRun, LaneTracker.update, hdrop]
    | cons q rest2 =>
      have hkeep : ¬ t.persistence_frames < t.left_age + 1 := by
        simp at hage; omega
      have hstep := update_miss_left t p2 hkeep
      have hrec := ih ((t.update none p2).1) (by simp)
        (by rw [hstep.1, hx])
        (fun r hr => hmiss r (by simp [hr]))
        (by rw [hstep.2.1, hstep.2.2]; simp at hage ⊢; omega)
      simpa only [trackerRun, List.foldl_cons] using hrec

lemma trackerRun_right_clear (ins : List (Option ℚ × Option ℚ)) (t : LaneTracker) (v : ℚ)
    (hne : ins ≠ []) (hx : t.right_x = some v) (hmiss : ∀ p ∈ ins, p.2 = none)
    (hage : t.right_age + ins.length = t.persistence_frames + 1) :
    (trackerRun t ins).right_x = none := by
  induction ins generalizing t with
  | nil => exact absurd rfl hne
  | cons p rest ih =>
    obtain ⟨p1, p2⟩ := p
    have hp : p2 = none := hmiss (p1, p2) (by simp)
    subst hp
    simp only [List.length_cons] at hage
    cases rest with
    | nil =>
      have hdrop : t.persistence_frames < t.right_age + 1 := by
        simp at hage; omega
      simp [trackerRun, LaneTracker.update, hdrop]
    | cons q rest2 =>
      have hkeep : ¬ t.persistence_frames < t.right_age + 1 := by
        simp at hage; omega
      have hstep := update_miss_right t p1 hkeep
      have hrec := ih ((t.update p1 none).1) (by simp)
        (by rw [hstep.1, hx])
        (fun r hr => hmiss r (by simp [hr]))
        (by rw [hstep.2.1, hstep.2.2]; simp at hage ⊢; omega)
      simpa only [trackerRun, List.foldl_cons] using hrec

/-- C5: with persistence horizon 15, a side observed in the current frame
(estimate present, age 0) survives any run of up to 15 consecutive missed
detections unchanged (the frame where its age equals the horizon included),
and is cleared to `none` exactly on the 16th consecutive miss, the update
where the age reaches horizon + 1. Stated for both sides; the other side of
each run may see arbitrary detections. -/
theorem lane_persistence_boundary (t : LaneTracker) (v : ℚ)
    (ins : List (Option ℚ × Option ℚ)) (h15 : t.persistence_frames = 15) :
    ((t.left_x = some v → t.left_age = 0 → (∀ p ∈ ins, p.1 = none) →
        ((ins.length ≤ 15 → (trackerRun t ins).left_x = some v)
       ∧ (ins.length = 16 → (trackerRun t ins).left_x = none)))
   ∧ (t.right_x = some v → t.right_age = 0 → (∀ p ∈ ins, p.2 = none) →
        ((ins.length ≤ 15 → (trackerRun t ins).right_x = some v)
       ∧ (ins.length = 16 → (trackerRun t ins).right_x = none)))) := by
  constructor
  · intro hx hage hmiss
    constructor
    · intro hlen
      exact (trackerRun_left_miss ins t v hx hmiss (by omega)).1
    · intro hlen
      exact trackerRun_left_clear ins t v
        (by intro h; subst h; simp at hlen) hx hmiss (by omega)
  · intro hx hage hmiss
    constructor
    · intro hlen
      exact (trackerRun_right_miss ins t v hx hmiss (by omega)).1
    · intro hlen
      exact trackerRun_right_clear ins t v
        (by intro h; subst h; simp at hlen) hx hmiss (by omega)

/-- Witness for C5: a tracker holding both sides (left 100, right 200, ages
0) keeps the estimates through 15 straight misses and loses them on the
16th. -/
theorem lane_persistence_boundary_witness :
    (trackerRun { left_x := some 100, right_x := some 200 }
        (List.replicate 15 (none, none))).left_x = some 100
  ∧ (trackerRun { left_x := some 100, right_x := some 200 }
        (List.replicate 16 (none, none))).left_x = none
  ∧ (trackerRun { left_x := some 100, right_x := some 200 }
        (List.replicate 16 (none, none))).right_x = none := by
  refine ⟨?_, ?_, ?_⟩
  · exact ((lane_persistence_boundary { left_x := some 100, right_x := some 200 } 100
      (List.replicate 15 (none, none)) rfl).1 rfl rfl (by decide)).1 (by decide)
  · exact ((lane_persistence_boundary { left_x := some 100, right_x := some 200 } 100
      (List.replicate 16 (none, none)) rfl).1 rfl rfl (by decide)).2 (by decide)
  · exact ((lane_persistence_boundary { left_x := some 100, right_x := some 200 } 200
      (List.replicate 16 (none, none)) rfl).2 rfl rfl (by decide)).2 (by decide)

/-! ## Lane-change sign convention (C6) -/

/-- C6: with both sides tracked and a previous center available,
`detect_lane_change` reports a change exactly when the absolute center shift
exceeds the threshold; on a change, a positive shift (center moved right)
gives direction `to_right` and a negative shift gives `to_left`; the new
center `(left + right) / 2` is always returned. -/
theorem lane_change_sign_convention (t : LaneTracker) (pc thr l r : ℚ)
    (hl : t.left_x = some l) (hr : t.right_x = some r) :
    (detect_lane_change t (some pc) thr).2.2 = some ((l + r) / 2)
  ∧ ((detect_lane_change t (some pc) thr).1 = true ↔ thr < |(l + r) / 2 - pc|)
  ∧ ((detect_lane_change t (some pc) thr).1 = true → 0 < (l + r) / 2 - pc →
      (detect_lane_change t (some pc) thr).2.1 = some LaneDir.to_right)
  ∧ ((detect_lane_change t (some pc) thr).1 = true → (l + r) / 2 - pc < 0 →
      (detect_lane_change t (some pc) thr).2.1 = some LaneDir.to_left) := by
  simp only [detect_lane_change, hl, hr]
  refine ⟨?_, ⟨fun hc => ?_, fun hgt => ?_⟩, fun hc hpos => ?_, fun hc hneg => ?_⟩
  · split_ifs <;> rfl
  · by_contra hnot
    rw [if_neg hnot] at hc
    simp at hc
  · rw [if_pos hgt]
  · by_cases hgt : thr < |(l + r) / 2 - pc|
    · rw [if_pos hgt]
      simp only [if_pos hpos]
    · rw [if_neg hgt] at hc
      simp at hc
  · by_cases hgt : thr < |(l + r) / 2 - pc|
    · rw [if_pos hgt]
      have : ¬ (0 : ℚ) < (l + r) / 2 - pc := by linarith
      simp only [if_neg this]
    · rw [if_neg hgt] at hc
      simp at hc

/-- Witness for C6 with threshold 40: a center move from 200 to 250 px
(tracked sides 200 and 300) emits a change with direction `to_right`, while
a move from 200 to 220 px (sides 190 and 250) emits none. -/
theorem lane_change_sign_convention_witness :
    (detect_lane_change { left_x := some 200, right_x := some 300 } (some 200) 40).1 = true
  ∧ (detect_lane_change { left_x := some 200, right_x := some 300 } (some 200) 40).2.1
      = some LaneDir.to_right
  ∧ (detect_lane_change { left_x := some 190, right_x := some 250 } (some 200) 40).1
      = false := by
  have h1 := lane_change_sign_convention
    { left_x := some 200, right_x := some 300 } 200 40 200 300 rfl rfl
  have h2 := lane_change_sign_convention
    { left_x := some 190, right_x := some 250 } 200 40 190 250 rfl rfl
  have hc : (detect_lane_change { left_x := some 200, right_x := some 300 }
      (some 200) 40).1 = true := h1.2.1.mpr (by norm_num)
  refine ⟨hc, h1.2.2.1 hc (by norm_num), ?_⟩
  cases hb : (detect_lane_change { left_x := some 190, right_x := some 250 }
      (some 200) 40).1 with
  | false => rfl
  | true => exact absurd (h2.2.1.mp hb) (by norm_num)

/-! ## Departure edge-triggering (C7) -/

/-- Frame condition for a left-crossing run: both lane positions present,
`vehicle_x ≤ left_lane_x`, and the vehicle strictly left of the right lane
boundary. -/
def leftRunCond (vx : ℚ) : Option ℚ × Option ℚ → Bool
  | (some l, some r) => decide (vx ≤ l) && decide (vx < r)
  | _ => false

/-- Frame condition for a right-crossing run: both lane positions present,
`right_lane_x ≤ vehicle_x`, and the vehicle strictly right of the left lane
boundary. -/
def rightRunCond (vx : ℚ) : Option ℚ × Option ℚ → Bool
  | (some l, some r) => decide (l < vx) && decide (r ≤ vx)
  | _ => false

lemma detect_dep_left_first (vx : ℚ) (p : Option ℚ × Option ℚ) (s0 : DepState)
    (hc : leftRunCond vx p = true) (hs : s0 ≠ DepState.crossing_left) :
    detect_lane_departure vx p.1 p.2 s0 = (true, some DepDir.left, DepState.crossing_left) := by
  obtain ⟨a, b⟩ := p
  cases a with
  | none => simp [leftRunCond] at hc
  | some l =>
    cases b with
    | none => simp [leftRunCond] at hc
    | some r =>
      simp only [leftRunCond, Bool.and_eq_true, decide_eq_true_eq] at hc
      simp [detect_lane_departure, hc.1, hs]

lemma detect_dep_left_stay (vx : ℚ) (p : Option ℚ × Option ℚ)
    (hc : leftRunCond vx p = true) :
    detect_lane_departure vx p.1 p.2 DepState.crossing_left
      = (false, none, DepState.crossing_left) := by
  obtain ⟨a, b⟩ := p
  cases a with
  | none => simp [leftRunCond] at hc
  | some l =>
    cases b with
    | none => simp [leftRunCond] at hc
    | some r =>
      simp only [leftRunCond, Bool.and_eq_true, decide_eq_true_eq] at hc
      have hr : ¬ r ≤ vx := by linarith [hc.2]
      simp [detect_lane_departure, hc.1, hr]

lemma detect_dep_right_first (vx : ℚ) (p : Option ℚ × Option ℚ) (s0 : DepState)
    (hc : rightRunCond vx p = true) (hs : s0 ≠ DepState.crossing_right) :
    detect_lane_departure vx p.1 p.2 s0 = (true, some DepDir.right, DepState.crossing_right) := by
  obtain ⟨a, b⟩ := p
  cases a with
  | none => simp [rightRunCond] at hc
  | some l =>
    cases b with
    | none => simp [rightRunCond] at hc
    | some r =>
      simp only [rightRunCond, Bool.and_eq_true, decide_eq_true_eq] at hc
      have hl : ¬ vx ≤ l := by linarith [hc.1]
      simp [detect_lane_departure, hl, hc.2, hs]

lemma detect_dep_right_stay (vx : ℚ) (p : Option ℚ × Option ℚ)
    (hc : rightRunCond vx p = true) :
    detect_lane_departure vx p.1 p.2 DepState.crossing_right
      = (false, none, DepState.crossing_right) := by
  obtain ⟨a, b⟩ := p
  cases a with
  | none => simp [rightRunCond] at hc
  | some l =>
    cases b with
    | none => simp [rightRunCond] at hc
    | some r =>
      simp only [rightRunCond, Bool.and_eq_true, decide_eq_true_eq] at hc
      have hl : ¬ vx ≤ l := by linarith [hc.1]
      simp [detect_lane_departure, hl, hc.2]

lemma departureRun_go_left (vx : ℚ) (inputs : List (Option ℚ × Option ℚ))
    (hc : ∀ p ∈ inputs, leftRunCond vx p = true) (fl : List Bool) :
    inputs.foldl (depStep vx) (fl, DepState.crossing_left)
      = (fl ++ List.replicate inputs.length false, DepState.crossing_left) := by
  induction inputs generalizing fl with
  | nil => simp
  | cons p rest ih =>
    have hstep : depStep vx (fl, DepState.crossing_left) p
        = (fl ++ [false], DepState.crossing_left) := by
      simp [depStep, detect_dep_left_stay vx p (hc p (by simp))]
    simp only [List.foldl_cons, hstep, ih (fun q hq => hc q (by simp [hq]))]
    simp [List.replicate_succ]

lemma departureRun_go_right (vx : ℚ) (inputs : List (Option ℚ × Option ℚ))
    (hc : ∀ p ∈ inputs, rightRunCond vx p = true) (fl : List Bool) :
    inputs.foldl (depStep vx) (fl, DepState.crossing_right)
      = (fl ++ List.replicate inputs.length false, DepState.crossing_right) := by
  induction inputs generalizing fl with
  | nil => simp
  | cons p rest ih =>
    have hstep : depStep vx (fl, DepState.crossing_right) p
        = (fl ++ [false], DepState.crossing_right) := by
      simp [depStep, detect_dep_right_stay vx p (hc p (by simp))]
    simp only [List.foldl_cons, hstep, ih (fun q hq => hc q (by simp [hq]))]
    simp [List.replicate_succ]

/-- C7 (amended): on a nonempty run of frames that all satisfy the
left-crossing condition with the vehicle strictly left of the right lane
boundary (`vehicle_x ≤ left_lane_x`, `vehicle_x < right_lane_x`, both sides
present), starting from a state other than `crossing_left`,
`detect_lane_departure` reports `is_departing = true` exactly on the first
frame and `false` on all remaining frames; symmetric for the right side. -/
theorem departure_edge_trigger (vx : ℚ) (inputs : List (Option ℚ × Option ℚ))
    (s0 : DepState) :
    (s0 ≠ DepState.crossing_left → inputs ≠ [] →
      (∀ p ∈ inputs, leftRunCond vx p = true) →
      (departureRun vx inputs s0).1 = true :: List.replicate (inputs.length - 1) false)
  ∧ (s0 ≠ DepState.crossing_right → inputs ≠ [] →
      (∀ p ∈ inputs, rightRunCond vx p = true) →
      (departureRun vx inputs s0).1 = true :: List.replicate (inputs.length - 1) false) := by
  constructor
  · intro hs hne hc
    cases inputs with
    | nil => exact absurd rfl hne
    | cons p rest =>
      have hstep : depStep vx ([], s0) p = ([true], DepState.crossing_left) := by
        simp [depStep, detect_dep_left_first vx p s0 (hc p (by simp)) hs]
      simp only [departureRun, List.foldl_cons, hstep,
        departureRun_go_left vx rest (fun q hq => hc q (by simp [hq])) [true]]
      simp
  · intro hs hne hc
    cases inputs with
    | nil => exact absurd rfl hne
    | cons p rest =>
      have hstep : depStep vx ([], s0) p = ([true], DepState.crossing_right) := by
        simp [depStep, detect_dep_right_first vx p s0 (hc p (by simp)) hs]
      simp only [departureRun, List.foldl_cons, hstep,
        departureRun_go_right vx rest (fun q hq => hc q (by simp [hq])) [true]]
      simp

/-- Witness for C7 (amended): a 3-frame left-crossing run (vehicle 4, left
boundary 5, right boundary 6) fires only on the first frame; a 2-frame
right-crossing run (vehicle 4, left 2, right 3) likewise. -/
theorem departure_edge_trigger_witness :
    (departureRun 4 [(some 5, some 6), (some 5, some 6), (some 5, some 6)]
        DepState.normal).1 = [true, false, false]
  ∧ (departureRun 4 [(some 2, some 3), (some 2, some 3)] DepState.normal).1
      = [true, false] := by
  constructor
  · exact (departure_edge_trigger 4
      [(some 5, some 6), (some 5, some 6), (some 5, some 6)] DepState.normal).1
      (by decide) (by decide) (by decide)
  · exact (departure_edge_trigger 4
      [(some 2, some 3), (some 2, some 3)] DepState.normal).2
      (by decide) (by decide) (by decide)

/-- Counterexample for C7 as stated: with vehicle 4 and degenerate lane
positions left 5, right 3 (both present, `vehicle_x ≤ left_lane_x` on both
frames), the second frame of the sustained crossing run also reports
`is_departing = true` (the right-crossing branch fires from state
`crossing_left`), so the claim "false on the remaining N-1 frames" fails. -/
theorem departure_edge_trigger_cex :
    (departureRun 4 [(some 5, some 3), (some 5, some 3)] DepState.normal).1
      = [true, true] := by decide

/-! ## Blinker-stuck cross-chunk memory (C9) -/

/-- A chunk with the left indicator ON (so `blinker_used` holds) and a given
lane-change flag; every other feature is off. -/
def blinkerChunk (i : Nat) (lc : Bool) : ChunkFeatures :=
  { chunk_id := i, left_signal_on := true, lane_change := lc }

/-- A chunk with no active feature at all. -/
def quietChunk (i : Nat) : ChunkFeatures :=
  { chunk_id := i }

/-- Counterexample for C9 as stated: for a lane change using the blinker at
chunk 5 and the blinker still ON at chunks 6 and 7 (no higher-priority rule
matching), the evaluator already emits scenario 4 at chunk 6 (list index 1),
because `blinker_still_on_chunks` also counts the lane-change chunk itself;
the claim says the event must not fire at chunk 6. -/
theorem blinker_stuck_cex :
    ((scenarioRun {} [blinkerChunk 5 true, blinkerChunk 6 false,
        blinkerChunk 7 false]).2.getD 1 0) = 4 := by decide

/-- C9 (amended): with a lane change using the blinker at chunk 5 and the
blinker still ON afterwards, scenario 4 fires at chunk 6 (the first chunk
after the change, when the ON counter that includes the change chunk reaches
2) and again at chunk 7; if the blinker is OFF at chunk 6, the stuck event
never fires for that lane change (chunks 7-9 stay at 0: the counter restarts
too late and the 2-chunk window then expires). -/
theorem blinker_stuck_amended :
    (scenarioRun {} [blinkerChunk 5 true, blinkerChunk 6 false,
        blinkerChunk 7 false]).2 = [0, 4, 4]
  ∧ (scenarioRun {} [blinkerChunk 5 true, quietChunk 6, blinkerChunk 7 false,
        blinkerChunk 8 false, blinkerChunk 9 false]).2 = [0, 0, 0, 0, 0] := by
  exact ⟨by decide, by decide⟩

set_option maxRecDepth 8000

/-! ## The emergency-braking candidate condition (C2) -/

/-- Modelled from the spec: the candidate-warning condition exactly as the
claim words it, for comparison with the implemented guard `ebsCandidate` —
history of at least 10 samples and `velocity_recent at least 2.0 with
current distance at most 0 m, or velocity_recent at least 2.5`. -/
def claimed_candidate (hist : List (Nat × ℚ)) (dist : ℚ) : Bool :=
  decide (10 ≤ hist.length) &&
    ((decide (2 ≤ histNegFifth hist - dist) && decide (dist ≤ 0))
      || decide ((5 / 2 : ℚ) ≤ histNegFifth hist - dist))

/-- Ten frames of track 1 approaching: distance 27/10 on frames 1-6, 1 on
frames 7-9, 1/2 on frame 10, giving `velocity_recent = 27/10 - 1/2 = 11/5`
at frame 10 with forward distance 1/2. -/
def c2Frames : List (List TrackedObject) :=
  (List.range 10).map (fun k =>
    [⟨"car", 1, if k + 1 ≤ 6 then 27 / 10 else (if k + 1 ≤ 9 then 1 else 1 / 2), 0⟩])

/-- Counterexample for C2 as stated: at frame 10 of `c2Frames` the code
emits a warning (`velocity_recent = 11/5 ≥ 2.0` and distance `1/2 ≤ 1.0`),
although the condition claimed by the spec is false there
(`velocity_recent < 2.5` and distance `1/2 > 0`): the code raises a
candidate the claimed condition forbids. -/
theorem ebs_candidate_cex :
    (ebsRun ebsInit c2Frames).2.getLast? = some true
  ∧ claimed_candidate ((ebsRun ebsInit c2Frames).1.history 1) (1 / 2) = false := by
  exact ⟨by decide, by decide⟩

/-- C2 (amended): for a call of `EmergencyBrakingSystem.check` on a frame
with one in-gate object, a warning is emitted exactly when the updated
history has at least 10 samples, `velocity_recent = history[-5].distance -
current distance` is at least 2.0, the current forward distance is at most
1.0 m (there is no 2.5-velocity branch and no 0 m threshold), and the
20-frame cooldown has passed. -/
theorem ebs_candidate_amended :
    (∀ (s : EmergencyBrakingSystem) (obj : TrackedObject),
        obj.class_name ∈ s.vehicle_classes →
        |obj.distance_lateral_m| ≤ 9 / 5 →
        ((EmergencyBrakingSystem.check s [obj]).2 = true ↔
          (ebsCandidate
              (ebsNewHist (s.frame_counter + 1) (s.history obj.track_id)
                obj.distance_forward_m)
              obj.distance_forward_m = true
           ∧ 20 < (s.frame_counter + 1 : Int) - lastWarnInt s.last_warning obj.track_id)))
  ∧ (∀ (hist : List (Nat × ℚ)) (dist : ℚ),
        ebsCandidate hist dist = true ↔
          (10 ≤ hist.length ∧ 2 ≤ histNegFifth hist - dist ∧ dist ≤ 1)) := by
  constructor
  · intro s obj hcls hlat
    have hnot : ¬ obj.class_name ∉ s.vehicle_classes := by simpa using hcls
    have hlat2 : ¬ (9 / 5 : ℚ) < |obj.distance_lateral_m| := not_lt.mpr hlat
    simp only [EmergencyBrakingSystem.check, List.foldl_cons, List.foldl_nil,
      ebsObjStep, hnot, hlat2, if_false]
    split_ifs with h1 h2 <;> simp_all
  · intro hist dist
    simp [ebsCandidate, and_assoc]

/-- Witness for C2 (amended): a state with nine prior samples of track 1 and
a tenth sample at distance 1/2 (velocity 5/2, within cooldown bounds) makes
`check` fire. -/
theorem ebs_candidate_amended_witness :
    (EmergencyBrakingSystem.check
      { history := fun t => if t = 1 then
          [(1, 3), (2, 3), (3, 3), (4, 3), (5, 3), (6, 3), (7, 1), (8, 1), (9, 1)] else []
        last_warning := fun _ => none
        frame_counter := 9
        vehicle_classes := ["car"] }
      [⟨"car", 1, 1 / 2, 0⟩]).2 = true := by
  exact (ebs_candidate_amended.1
    { history := fun t => if t = 1 then
        [(1, 3), (2, 3), (3, 3), (4, 3), (5, 3), (6, 3), (7, 1), (8, 1), (9, 1)] else []
      last_warning := fun _ => none
      frame_counter := 9
      vehicle_classes := ["car"] }
    ⟨"car", 1, 1 / 2, 0⟩ (by decide) (by decide)).mpr ⟨by decide, by decide⟩

/-! ## Eviction of absent track ids (C4) -/

lemma present_ids_cons (vcs : List String) (o : TrackedObject) (os : List TrackedObject) :
    present_ids vcs (o :: os) = present_ids vcs [o] ++ present_ids vcs os := by
  unfold present_ids
  simp only [List.filter_cons]
  split <;> simp

lemma present_ids_singleton (vcs : List String) (o : TrackedObject) :
    present_ids vcs [o]
      = if o.class_name ∈ vcs ∧ ¬ ((9 / 5 : ℚ) < |o.distance_lateral_m|)
        then [o.track_id] else [] := by
  unfold present_ids
  by_cases h1 : o.class_name ∈ vcs <;>
    by_cases h2 : (9 / 5 : ℚ) < |o.distance_lateral_m| <;>
      simp [h1, h2]

lemma ebsObjStep_present (vcs : List String) (fc : Nat) (st : EbsLoopState)
    (o : TrackedObject) :
    (ebsObjStep vcs fc st o).present_ids = st.present_ids ++ present_ids vcs [o] := by
  unfold ebsObjStep
  by_cases h1 : o.class_name ∉ vcs
  · rw [if_pos h1, present_ids_singleton, if_neg (fun hh => h1 hh.1)]
    simp
  · by_cases h2 : (9 / 5 : ℚ) < |o.distance_lateral_m|
    · rw [if_neg h1, if_pos h2, present_ids_singleton, if_neg (fun hh => hh.2 h2)]
      simp
    · have hmem : o.class_name ∈ vcs := by simpa using h1
      have hcond : o.class_name ∈ vcs ∧ ¬ (9 / 5 : ℚ) < |o.distance_lateral_m| :=
        ⟨hmem, h2⟩
      rw [if_neg h1, if_neg h2, present_ids_singleton, if_pos hcond]
      split_ifs <;> rfl

lemma ebsObjStep_lw_not_present (vcs : List String) (fc : Nat) (st : EbsLoopState)
    (o : TrackedObject) (tid : Int) (h : tid ∉ present_ids vcs [o]) :
    (ebsObjStep vcs fc st o).last_warning tid = st.last_warning tid := by
  unfold ebsObjStep
  by_cases h1 : o.class_name ∉ vcs
  · rw [if_pos h1]
  · by_cases h2 : (9 / 5 : ℚ) < |o.distance_lateral_m|
    · rw [if_neg h1, if_pos h2]
    · rw [if_neg h1, if_neg h2]
      have hmem : o.class_name ∈ vcs := by simpa using h1
      have hne : tid ≠ o.track_id := by
        rw [present_ids_singleton] at h
        intro he
        apply h
        rw [if_pos ⟨hmem, h2⟩]
        simp [he]
      split_ifs <;> first | rfl | exact Function.update_noteq hne _ _

lemma ebsFold_present (vcs : List String) (fc : Nat) (objs : List TrackedObject) :
    ∀ st : EbsLoopState,
      (objs.foldl (ebsObjStep vcs fc) st).present_ids
        = st.present_ids ++ present_ids vcs objs := by
  induction objs with
  | nil => intro st; simp [present_ids]
  | cons o os ih =>
    intro st
    rw [List.foldl_cons, ih, ebsObjStep_present, present_ids_cons vcs o os,
      List.append_assoc]

lemma ebsFold_lw_not_present (vcs : List String) (fc : Nat) (objs : List TrackedObject)
    (tid : Int) (h : tid ∉ present_ids vcs objs) :
    ∀ st : EbsLoopState,
      (objs.foldl (ebsObjStep vcs fc) st).last_warning tid = st.last_warning tid := by
  induction objs with
  | nil => intro st; rfl
  | cons o os ih =>
    intro st
    rw [present_ids_cons] at h
    simp only [List.mem_append, not_or] at h
    simp only [List.foldl_cons, ih h.2, ebsObjStep_lw_not_present vcs fc st o tid h.1]

/-- C4 (amended): after a call of `EmergencyBrakingSystem.check`, any track
id absent from the current frame object set (more precisely, not among the
objects passing the vehicle/lateral gates) has an empty history — but its
`last_warning` entry is left untouched, so a numerically identical track id
that reappears later starts with a fresh history while keeping the old
warning time for the cooldown. -/
theorem ebs_eviction_amended (s : EmergencyBrakingSystem) (objs : List TrackedObject)
    (tid : Int) (habs : tid ∉ present_ids s.vehicle_classes objs) :
    (EmergencyBrakingSystem.check s objs).1.history tid = []
  ∧ (EmergencyBrakingSystem.check s objs).1.last_warning tid = s.last_warning tid := by
  constructor
  · simp only [EmergencyBrakingSystem.check]
    rw [ebsFold_present]
    simp [habs]
  · simp only [EmergencyBrakingSystem.check]
    exact ebsFold_lw_not_present s.vehicle_classes (s.frame_counter + 1) objs tid habs _

/-- Witness for C4 (amended): track id 1 is absent from a frame containing
only track 2, so its history is empty afterwards and its (empty) cooldown
entry is unchanged. -/
theorem ebs_eviction_amended_witness :
    (EmergencyBrakingSystem.check ebsInit [⟨"car", 2, 5, 0⟩]).1.history 1 = []
  ∧ (EmergencyBrakingSystem.check ebsInit [⟨"car", 2, 5, 0⟩]).1.last_warning 1 = none :=
  ebs_eviction_amended ebsInit [⟨"car", 2, 5, 0⟩] 1 (by decide)

/-- Ten frames of track 1 (distance 3 on frames 1-6, then 1/2) making the
code warn at frame 10, followed by one frame with no objects at all. -/
def c4Frames : List (List TrackedObject) :=
  ((List.range 10).map (fun k => [⟨"car", 1, if k + 1 ≤ 6 then 3 else 1 / 2, 0⟩])) ++ [[]]

/-- Counterexample for C4 as stated: after the frame in which track 1 is
absent, its history is purged but its cooldown entry still records the
warning at frame 10 — the claim that the track id is removed from the
cooldown (last_warning) table as well is false. -/
theorem ebs_eviction_cex :
    (ebsStates ebsInit c4Frames).history 1 = []
  ∧ (ebsStates ebsInit c4Frames).last_warning 1 = some 10 :=
  ⟨by decide, by decide⟩

/-! ## Cooldown debounce (C3) -/

lemma lastWarnInt_congr {f g : Int → Option Nat} {tid : Int} (h : f tid = g tid) :
    lastWarnInt f tid = lastWarnInt g tid := by
  unfold lastWarnInt
  rw [h]

lemma lastWarnInt_eq_of {f : Int → Option Nat} {tid : Int} {n : Nat}
    (h : f tid = some n) : lastWarnInt f tid = (n : Int) := by
  unfold lastWarnInt
  rw [h]

lemma ebsObjStep_lw_cases (vcs : List String) (fc : Nat) (st : EbsLoopState)
    (o : TrackedObject) (tid : Int) :
    (ebsObjStep vcs fc st o).last_warning tid = st.last_warning tid
  ∨ ((ebsObjStep vcs fc st o).last_warning tid = some fc
      ∧ 20 < (fc : Int) - lastWarnInt st.last_warning tid) := by
  unfold ebsObjStep
  split_ifs with h1 h2 h3 h4 <;> try exact Or.inl rfl
  by_cases he : tid = o.track_id
  · subst he
    exact Or.inr ⟨Function.update_same _ _ _, h4⟩
  · exact Or.inl (Function.update_noteq he _ _)

lemma ebsFold_lw_cases (vcs : List String) (fc : Nat) (objs : List TrackedObject)
    (tid : Int) :
    ∀ st : EbsLoopState,
      (objs.foldl (ebsObjStep vcs fc) st).last_warning tid = st.last_warning tid
    ∨ ((objs.foldl (ebsObjStep vcs fc) st).last_warning tid = some fc
        ∧ 20 < (fc : Int) - lastWarnInt st.last_warning tid) := by
  induction objs with
  | nil => intro st; exact Or.inl rfl
  | cons o os ih =>
    intro st
    rw [List.foldl_cons]
    rcases ih (ebsObjStep vcs fc st o) with hA | ⟨hB1, hB2⟩ <;>
      rcases ebsObjStep_lw_cases vcs fc st o tid with ha | ⟨hb1, hb2⟩
    · exact Or.inl (hA.trans ha)
    · exact Or.inr ⟨hA.trans hb1, hb2⟩
    · rw [lastWarnInt_congr ha] at hB2
      exact Or.inr ⟨hB1, hB2⟩
    · rw [lastWarnInt_eq_of hb1] at hB2
      omega
  
lemma check_lw_cases (s : EmergencyBrakingSystem) (objs : List TrackedObject) (tid : Int) :
    (EmergencyBrakingSystem.check s objs).1.last_warning tid = s.last_warning tid
  ∨ ((EmergencyBrakingSystem.check s objs).1.last_warning tid = some (s.frame_counter + 1)
      ∧ 20 < (s.frame_counter + 1 : Int) - lastWarnInt s.last_warning tid) := by
  simp only [EmergencyBrakingSystem.check]
  exact ebsFold_lw_cases s.vehicle_classes (s.frame_counter + 1) objs tid _

lemma check_lwInt_mono (s : EmergencyBrakingSystem) (objs : List TrackedObject) (tid : Int) :
    lastWarnInt s.last_warning tid
      ≤ lastWarnInt (EmergencyBrakingSystem.check s objs).1.last_warning tid := by
  rcases check_lw_cases s objs tid with h | ⟨h1, h2⟩
  · rw [lastWarnInt_congr h]
  · rw [lastWarnInt_eq_of h1]
    omega

lemma check_fc (s : EmergencyBrakingSystem) (objs : List TrackedObject) :
    (EmergencyBrakingSystem.check s objs).1.frame_counter = s.frame_counter + 1 := rfl

lemma ebsStates_fc (s : EmergencyBrakingSystem) (frames : List (List TrackedObject)) :
    (ebsStates s frames).frame_counter = s.frame_counter + frames.length := by
  induction frames generalizing s with
  | nil => simp [ebsStates]
  | cons f fs ih =>
    simp only [ebsStates, List.foldl_cons] at ih ⊢
    rw [ih, check_fc]
    simp only [List.length_cons]
    omega

lemma ebsStateAt_fc (s : EmergencyBrakingSystem) (frames : List (List TrackedObject))
    (i : Nat) (h : i ≤ frames.length) :
    (ebsStateAt s frames i).frame_counter = s.frame_counter + i := by
  unfold ebsStateAt
  rw [ebsStates_fc, List.length_take]
  omega

lemma ebsStateAt_succ (s : EmergencyBrakingSystem) (frames : List (List TrackedObject))
    (i : Nat) (h : i < frames.length) :
    ebsStateAt s frames (i + 1)
      = (EmergencyBrakingSystem.check (ebsStateAt s frames i) (frames.getD i [])).1 := by
  unfold ebsStateAt ebsStates
  rw [List.take_succ, List.foldl_append]
  have hg : frames[i]? = some frames[i] := List.getElem?_eq_getElem h
  rw [hg, List.getD_eq_getElem?_getD, hg]
  rfl

lemma ebsStateAt_stable (s : EmergencyBrakingSystem) (frames : List (List TrackedObject))
    (i : Nat) (h : frames.length ≤ i) :
    ebsStateAt s frames (i + 1) = ebsStateAt s frames i := by
  unfold ebsStateAt
  rw [List.take_of_length_le h, List.take_of_length_le (h.trans (Nat.le_succ i))]

lemma lwInt_stateAt_mono (s : EmergencyBrakingSystem) (frames : List (List TrackedObject))
    (tid : Int) (i j : Nat) (hij : i ≤ j) :
    lastWarnInt (ebsStateAt s frames i).last_warning tid
      ≤ lastWarnInt (ebsStateAt s frames j).last_warning tid := by
  have key : ∀ k, i ≤ k →
      lastWarnInt (ebsStateAt s frames i).last_warning tid
        ≤ lastWarnInt (ebsStateAt s frames k).last_warning tid := by
    intro k
    induction k with
    | zero =>
      intro h0
      have : i = 0 := Nat.le_zero.mp h0
      subst this
      exact le_refl _
    | succ k ihk =>
      intro hik
      by_cases hcase : i = k + 1
      · subst hcase
        exact le_refl _
      · have hle : i ≤ k := by omega
        have hstep : lastWarnInt (ebsStateAt s frames k).last_warning tid
            ≤ lastWarnInt (ebsStateAt s frames (k + 1)).last_warning tid := by
          by_cases hl : k < frames.length
          · rw [ebsStateAt_succ s frames k hl]
            exact check_lwInt_mono _ _ _
          · rw [ebsStateAt_stable s frames k (le_of_not_lt hl)]
        exact (ihk hle).trans hstep
  exact key j hij

lemma warnedAt_spec (s : EmergencyBrakingSystem) (frames : List (List TrackedObject))
    (i : Nat) (tid : Int) (h : warnedAt s frames i tid) :
    (EmergencyBrakingSystem.check (ebsStateAt s frames i)
        (frames.getD i [])).1.last_warning tid
      = some ((ebsStateAt s frames i).frame_counter + 1)
  ∧ 20 < ((ebsStateAt s frames i).frame_counter + 1 : Int)
      - lastWarnInt (ebsStateAt s frames i).last_warning tid := by
  rcases check_lw_cases (ebsStateAt s frames i) (frames.getD i []) tid with hc | hc
  · exact absurd hc h
  · exact hc

lemma warnedAt_lt_length (s : EmergencyBrakingSystem)
    (frames : List (List TrackedObject)) (i : Nat) (tid : Int)
    (h : warnedAt s frames i tid) : i < frames.length := by
  by_contra hge
  apply h
  have hd : frames.getD i [] = [] := List.getD_eq_default _ _ (le_of_not_lt hge)
  rw [hd]
  rfl

/-- C3: warnings are debounced per track id by the 20-frame cooldown: if a
run of `EmergencyBrakingSystem.check` calls emits a warning for a given
track id at frame indices `i` and `j` with `i < j`, then at least 20 frames
lie between them (the code in fact enforces a strictly greater than 20
frame-counter difference), so at most one warning per track id can fall in
any 20-frame window, no matter how many frames satisfy the raw velocity
condition. -/
theorem ebs_cooldown (s : EmergencyBrakingSystem) (frames : List (List TrackedObject))
    (tid : Int) (i j : Nat) (hij : i < j)
    (hi : warnedAt s frames i tid) (hj : warnedAt s frames j tid) :
    20 ≤ j - i := by
  have hjlen : j < frames.length := warnedAt_lt_length s frames j tid hj
  have hilen : i < frames.length := lt_trans hij hjlen
  have hfci : (ebsStateAt s frames i).frame_counter = s.frame_counter + i :=
    ebsStateAt_fc s frames i (le_of_lt hilen)
  have hfcj : (ebsStateAt s frames j).frame_counter = s.frame_counter + j :=
    ebsStateAt_fc s frames j (le_of_lt hjlen)
  have hspeci := warnedAt_spec s frames i tid hi
  have hspecj := warnedAt_spec s frames j tid hj
  have hsucc := ebsStateAt_succ s frames i hilen
  have hval : lastWarnInt (ebsStateAt s frames (i + 1)).last_warning tid
      = ((s.frame_counter + i + 1 : Nat) : Int) := by
    rw [hsucc, lastWarnInt_eq_of hspeci.1, hfci]
  have hmono := lwInt_stateAt_mono s frames tid (i + 1) j (by omega)
  rw [hval] at hmono
  have hupper := hspecj.2
  rw [hfcj] at hupper
  omega

/-- Synthetic closing-and-receding distance pattern: 3 m on frames whose
index mod 8 lies in 1..4, else 1 m, so the raw candidate condition holds on
four frames out of every eight from frame 10 on. -/
def c3Dist (f : Nat) : ℚ := if 1 ≤ f % 8 ∧ f % 8 ≤ 4 then 3 else 1

/-- 37 frames of a single same-lane car (track 1) following `c3Dist`. -/
def c3Frames : List (List TrackedObject) :=
  (List.range 37).map (fun k => [⟨"car", 1, c3Dist (k + 1), 0⟩])

/-- Witness for C3: on `c3Frames` the raw condition holds on many frames,
yet warnings for track 1 fire exactly at indices 12 and 36, which the
theorem confirms are at least 20 frames apart. -/
theorem ebs_cooldown_witness :
    warnedAt ebsInit c3Frames 12 1 ∧ warnedAt ebsInit c3Frames 36 1 ∧ 20 ≤ 36 - 12 :=
  ⟨by decide, by decide,
    ebs_cooldown ebsInit c3Frames 1 12 36 (by decide) (by decide) (by decide)⟩
